import Mathlib

/-!
Verification of the compliance analyzer script (`ai-analyzer.py`).

The script is embedded shallowly:

* JSON values decoded by `json.load` are modelled by the inductive `Json`
  (objects as association lists; `json.load` keeps the last duplicate key,
  and we assume, as the decoder guarantees for its output, that keys are
  distinct).
* Python expressions that can raise an exception are modelled in `Option`:
  `none` is an uncaught exception at that point.
* The three remote collaborators (Bedrock model invocation, S3 put, SNS
  publish) are oracles passed in as parameters: the outcome of each call is
  an input of the model, and the effects the script performs (file write,
  remote invocations, notification) are recorded in a `RunEffects` record.
* Standard output (diagnostic prints) is not modelled.
-/

/-- A decoded JSON document (the result of `json.load`). -/
inductive Json where
  | null : Json
  | bool : Bool → Json
  | num : Int → Json
  | str : String → Json
  | arr : List Json → Json
  | obj : List (String × Json) → Json

/-- Key lookup in a decoded JSON object (first match; keys are distinct). -/
def lookupField (key : String) : List (String × Json) → Option Json
  | [] => none
  | (k, v) :: rest => if k = key then some v else lookupField key rest

/-- `d.get(key)` on a value known to be a dict, `none` when absent. -/
def Json.lookup : Json → String → Option Json
  | Json.obj fields, key => lookupField key fields
  | _, _ => none

/-- `isinstance(j, dict)`. -/
def Json.isObj : Json → Bool
  | Json.obj _ => true
  | _ => false

/-- Python `d.get(key, default)`: the stored value, or `default` when the key
is absent; raises `AttributeError` (modelled `none`) when `d` is not a dict. -/
def pyGetD : Json → String → Json → Option Json
  | Json.obj fields, key, dflt => some ((lookupField key fields).getD dflt)
  | _, _, _ => none

/-- Python `repr` of a decoded JSON value (used by `str` inside containers). -/
def pyRepr : Json → String
  | Json.null => "None"
  | Json.bool true => "True"
  | Json.bool false => "False"
  | Json.num n => toString n
  | Json.str s => "\x27" ++ s ++ "\x27"
  | Json.arr xs =>
      "[" ++ String.intercalate ", " (xs.attach.map (fun x => pyRepr x.1)) ++ "]"
  | Json.obj fs =>
      "\x7b" ++
        String.intercalate ", "
          (fs.attach.map (fun p => "\x27" ++ p.1.1 ++ "\x27: " ++ pyRepr p.1.2)) ++
      "\x7d"
decreasing_by
  all_goals simp_wf
  · have := List.sizeOf_lt_of_mem x.2; omega
  · have h1 := List.sizeOf_lt_of_mem p.2
    have h2 : sizeOf p.1.2 < sizeOf p.1 := by
      obtain ⟨⟨k, v⟩, hm⟩ := p
      simp
    omega

/-- Python `str` of a decoded JSON value, as interpolated in an f-string. -/
def pyStr : Json → String
  | Json.str s => s
  | j => pyRepr j

/-- `f.get('status_id') == n` for an integer literal `n`. A missing key gives
`None == n`, i.e. `False`; a JSON boolean compares as a Python `bool`, which
is an `int` subclass (`True == 1`); any other value is not equal to `n`. -/
def statusEq (f : Json) (n : Int) : Bool :=
  match Json.lookup f "status_id" with
  | some (Json.num m) => m == n
  | some (Json.bool b) => (if b then (1 : Int) else 0) == n
  | _ => false

/-- Lines 102-105 of `main`: `prowler_results.get('findings', []) if
isinstance(prowler_results, dict) else []`, together with the iteration the
two list comprehensions perform over it. `none` models an uncaught
exception. Iterating a list visits its elements, whose `f.get` raises
`AttributeError` unless every element is a dict; iterating a string visits
its characters and iterating a dict its string keys, so a non-empty string
or dict raises at the first `f.get`, while an empty one iterates zero times
and yields zero findings; any other value (`None`, a bool, a number) is not
iterable, so the first comprehension raises `TypeError`. -/
def all_findings : Json → Option (List Json)
  | Json.obj fields =>
      match (lookupField "findings" fields).getD (Json.arr []) with
      | Json.arr xs => if xs.all Json.isObj then some xs else none
      | Json.str s => if s = "" then some [] else none
      | Json.obj kvs => if kvs.isEmpty then some [] else none
      | _ => none
  | _ => some []

/-- Line 104: `[f for f in all_findings if f.get('status_id') == 2]`. -/
def failed_checks (xs : List Json) : List Json :=
  xs.filter (fun f => statusEq f 2)

/-- Line 105: `[f for f in all_findings if f.get('status_id') == 1]`. -/
def passed_checks (xs : List Json) : List Json :=
  xs.filter (fun f => statusEq f 1)

/-- Line 107: `total_checks = len(failed_checks) + len(passed_checks)`. -/
def total_checks (xs : List Json) : Nat :=
  (failed_checks xs).length + (passed_checks xs).length

/-- The five display fields extracted at lines 21-25 of `analyze_with_ai`. -/
structure Extracted where
  check_id : String
  check_title : String
  resource_uid : String
  region : String
  severity : String

/-- Line 18: `finding.get('resources', [{}])[0]`. A missing key defaults to
`[{}]`, whose first element is `{}`; a present empty list raises
`IndexError`; a present non-list value either fails the subscript or makes
the following `.get` raise, so it is a raise here as well (the difference is
not observable in anything modelled). -/
def resources_first (finding : Json) : Option Json :=
  match pyGetD finding "resources" (Json.arr [Json.obj []]) with
  | some (Json.arr xs) => xs.head?
  | _ => none

/-- Line 21: `metadata.get('product', {}).get('feature', {}).get('uid',
'Unknown')` with `metadata = finding.get('metadata', {})` (line 16). -/
def check_id_of (finding : Json) : Option String :=
  match pyGetD finding "metadata" (Json.obj []) with
  | none => none
  | some metadata =>
    match pyGetD metadata "product" (Json.obj []) with
    | none => none
    | some product =>
      match pyGetD product "feature" (Json.obj []) with
      | none => none
      | some feature => (pyGetD feature "uid" (Json.str "Unknown")).map pyStr

/-- Line 22: `finding.get('message', 'Unknown')`. Lines 148 and 158 of the
main loop recompute the same expression. -/
def check_title_of (finding : Json) : Option String :=
  (pyGetD finding "message" (Json.str "Unknown")).map pyStr

/-- Line 23: `resources.get('uid', 'Unknown')` with `resources` from line 18.
Lines 144/147 and 157 of the main loop recompute the same expression. -/
def resource_uid_of (finding : Json) : Option String :=
  match resources_first finding with
  | none => none
  | some res => (pyGetD res "uid" (Json.str "Unknown")).map pyStr

/-- Line 24: `cloud.get('region', 'N/A')` with `cloud = finding.get('cloud',
{})` (line 19). -/
def region_of (finding : Json) : Option String :=
  match pyGetD finding "cloud" (Json.obj []) with
  | none => none
  | some cloud => (pyGetD cloud "region" (Json.str "N/A")).map pyStr

/-- Line 25: `finding.get('severity', 'Unknown')`. -/
def severity_of (finding : Json) : Option String :=
  (pyGetD finding "severity" (Json.str "Unknown")).map pyStr

/-- Lines 16-25 of `analyze_with_ai`: the whole field extraction. `none` when
any of it raises (the order of the raise points differs from the source, but
every raising input raises in both, before the remote call is reached). -/
def extract_ocsf_fields (finding : Json) : Option Extracted :=
  match check_id_of finding, check_title_of finding, resource_uid_of finding,
        region_of finding, severity_of finding with
  | some ci, some ct, some ru, some rg, some sv =>
      some ⟨ci, ct, ru, rg, sv⟩
  | _, _, _, _, _ => none

/-- The prompt built at lines 27-47 from the extracted fields. -/
def prompt_for (e : Extracted) : String :=
  "Analyze this AWS security violation and provide NIST 800-53 compliant fixes.\n\n" ++
  "VIOLATION DETAILS:\n" ++
  "- Check ID: " ++ e.check_id ++ "\n" ++
  "- Check: " ++ e.check_title ++ "\n" ++
  "- Resource: " ++ e.resource_uid ++ "\n" ++
  "- Region: " ++ e.region ++ "\n" ++
  "- Severity: " ++ e.severity ++ "\n\n" ++
  "PROVIDE YOUR RESPONSE IN THIS EXACT FORMAT:\n\n" ++
  "## 1. EXPLANATION\n" ++
  "[Explain why this violates NIST 800-53 and which specific controls are violated]\n\n" ++
  "## 2. FAILED RESOURCES\n" ++
  "[List the specific AWS resources that failed this check]\n\n" ++
  "## 3. TERRAFORM FIX CODE\n" ++
  "[Provide complete, working, copy-paste ready Terraform code to resolve this violation]\n\n" ++
  "Focus on actionable fixes with production-ready Terraform code."

/-- `analyze_with_ai` (lines 7-66). `remote` is the outcome of the Bedrock
invocation and response-field extraction (lines 50-63): `some text` when a
text field was obtained, `none` for any exception inside the `try` block
(network error, malformed response, missing expected field), which the
handler at lines 64-66 converts to the fallback string. The field extraction
at lines 16-25 happens before the `try` block, so an exception there
(modelled as result `none`) escapes to the caller. -/
def analyze_with_ai (remote : Option String) (finding : Json) : Option String :=
  match extract_ocsf_fields finding with
  | none => none
  | some e =>
      some (match remote with
            | some text => text
            | none => "Check failed: " ++ e.check_title)

/-- `'=' * 70` (lines 109-115, 139). -/
def eqSep : String := String.mk (List.replicate 70 '=')

/-- `'-' * 70` (lines 154, 160). -/
def dashSep : String := String.mk (List.replicate 70 '-')

/-- Lines 137-140: the header entries of `report_lines`. -/
def report_header (nfails : Nat) : List String :=
  ["NIST 800-53 COMPLIANCE VIOLATIONS REPORT", eqSep,
   "Total Violations: " ++ toString nfails ++ "\n"]

/-- Lines 156-160: the entries appended to `report_lines` for one violation. -/
def violation_section (idx : Nat) (ruid check ai : String) : List String :=
  ["\nVIOLATION " ++ toString idx ++ ":",
   "Resource: " ++ ruid,
   "Check: " ++ check,
   "\n" ++ ai,
   dashSep]

/-- The violations loop, lines 142-160 (`for idx, finding in
enumerate(failed_checks, 1)`). `remote k` is the outcome of the Bedrock
invocation made at loop position `k` (1-based). First component: the
accumulated report sections, `none` when an uncaught exception aborts the
loop; second component: the findings for which the Bedrock model was
actually invoked, in order. -/
def violations_loop (remote : Nat → Option String) (idx : Nat) :
    List Json → Option (List String) × List Json
  | [] => (some [], [])
  | f :: fs =>
    match resource_uid_of f with
    | none => (none, [])
    | some ruid =>
      match check_title_of f with
      | none => (none, [])
      | some check =>
        match analyze_with_ai (remote idx) f with
        | none => (none, [])
        | some ai =>
          match violations_loop remote (idx + 1) fs with
          | (none, invs) => (none, f :: invs)
          | (some rest, invs) =>
              (some (violation_section idx ruid check ai ++ rest), f :: invs)

/-- Lines 137-163: full report assembly for the failing branch. First
component: `report_content = "\n".join(report_lines)` when the loop
completed (`none` = the run crashed first); second component: the findings
for which the model was invoked. -/
def report_of (remote : Nat → Option String) (fails : List Json) :
    Option String × List Json :=
  match violations_loop remote 1 fails with
  | (none, invs) => (none, invs)
  | (some secs, invs) =>
      (some (String.intercalate "\n" (report_header fails.length ++ secs)), invs)

/-- `send_notification` (lines 68-85): the `(Subject, Message)` actually
published, `none` when the topic is unset (skipped with a warning) or the
publish raises (the exception is caught at lines 84-85). -/
def send_notification (topic : Option String) (snsOk : Bool)
    (summary details : String) : Option (String × String) :=
  match topic with
  | none => none
  | some _ => if snsOk then some (summary.take 100, details.take 262000) else none

/-- Line 121: the success notification subject. -/
def success_summary (total : Nat) : String :=
  "✅ NIST 800-53 Compliance: All " ++ toString total ++ " checks passed!"

/-- Lines 122-130: the success notification body. -/
def success_details (total passed : Nat) : String :=
  "NIST 800-53 COMPLIANCE SCAN - SUCCESS\n\nTotal Checks Run: " ++ toString total ++
  "\nPassed: " ++ toString passed ++
  "\nFailed: 0\n\nStatus: DEPLOYMENT APPROVED\nAll NIST 800-53 compliance requirements met.\n"

/-- Line 183: the failure notification subject. -/
def fail_summary (nfails : Nat) : String :=
  "❌ NIST 800-53: " ++ toString nfails ++ " violation(s) - AI fixes provided"

/-- Lines 184-188: the failure notification body before truncation. -/
def fail_message (report : String) (bucket : Option String) : String :=
  report ++ "\n\n---\nFull report also available in S3: s3://" ++
  (match bucket with | some b => b | none => "N/A") ++
  "/compliance-reports/latest-report.txt\n"

/-- How a run of `main` terminates. -/
inductive RunOutcome where
  | exited (code : Nat) : RunOutcome
  | crashed : RunOutcome
deriving DecidableEq

/-- The Unix exit status of the process: `sys.exit(c)` terminates with `c`;
an uncaught Python exception terminates the interpreter with status 1. -/
def RunOutcome.processExit : RunOutcome → Nat
  | RunOutcome.exited c => c
  | RunOutcome.crashed => 1

/-- The observable effects of one run of `main`. `parsed` records whether
control got past the read/decode block at lines 94-99; `reportFile` is the
content written to the fixed relative path `compliance-report.txt` (opened
with mode `w`, so any previous content is overwritten, line 164); `s3Put`
the body stored under the fixed key when the put succeeded; `invoked` the
findings for which the Bedrock model was invoked, in order; `notifyCall` the
`(summary, details)` passed to `send_notification`; `published` what SNS
actually published. -/
structure RunEffects where
  outcome : RunOutcome
  parsed : Bool
  reportFile : Option String
  s3Put : Option String
  invoked : List Json
  notifyCall : Option (String × String)
  published : Option (String × String)

/-- `main` (lines 87-197). `argc = len(sys.argv)`; `input` is the outcome of
lines 94-99 (`none` = `open`/`json.load` raised); `remote k` the outcome of
the `k`-th Bedrock invocation; `bucket` and `topic` the `ARTIFACT_BUCKET`
and `SNS_TOPIC_ARN` environment variables; `s3Ok`/`snsOk` whether the S3 put
and SNS publish calls succeed (their failures are caught at lines 179-180
and 84-85 and only logged). -/
def runMain (argc : Nat) (input : Option Json) (remote : Nat → Option String)
    (bucket : Option String) (s3Ok : Bool) (topic : Option String) (snsOk : Bool) :
    RunEffects :=
  if argc < 2 then
    ⟨RunOutcome.exited 1, false, none, none, [], none, none⟩
  else
    match input with
    | none => ⟨RunOutcome.exited 1, false, none, none, [], none, none⟩
    | some j =>
      match all_findings j with
      | none => ⟨RunOutcome.crashed, true, none, none, [], none, none⟩
      | some xs =>
        if (failed_checks xs).length = 0 then
          let summary := success_summary (total_checks xs)
          let details := success_details (total_checks xs) (passed_checks xs).length
          ⟨RunOutcome.exited 0, true, none, none, [],
           some (summary, details), send_notification topic snsOk summary details⟩
        else
          match report_of remote (failed_checks xs) with
          | (none, invs) => ⟨RunOutcome.crashed, true, none, none, invs, none, none⟩
          | (some report, invs) =>
            let summary := fail_summary (failed_checks xs).length
            let message := (fail_message report bucket).take 262000
            ⟨RunOutcome.exited 1, true, some report,
             (match bucket with
              | some _ => if s3Ok then some report else none
              | none => none),
             invs, some (summary, message),
             send_notification topic snsOk summary message⟩

/-- The exit rule stated by the spec (§6, §7), written in the spec's words:
the exit status as a pure function of argument count, parse success
(including classification of the findings array) and the failing count. -/
def exitCodeSpec (argc : Nat) (input : Option Json) : Nat :=
  if argc < 2 then 1
  else
    match input with
    | none => 1
    | some j =>
      match all_findings j with
      | none => 1
      | some xs => if (failed_checks xs).length = 0 then 0 else 1

/-- A failing finding on which the local field extraction of the loop body
(lines 142-158) and of the adapter (lines 16-25) raises nothing. -/
def processable (f : Json) : Bool :=
  (resource_uid_of f).isSome && (check_title_of f).isSome &&
    (extract_ocsf_fields f).isSome

/-- Claim C1: the process exit status is a pure function of (argument count,
parse success, failure count): 0 exactly when the argument is present, the
input was read, decoded and classified without an exception, and the failing
count is zero; 1 otherwise (usage error, read or decode error, one or more
failing findings, or a crash while processing a failing finding, which also
terminates the interpreter with status 1). The status does not depend on the
Bedrock, S3 or SNS collaborators (`remote`, `bucket`, `s3Ok`, `topic`,
`snsOk` do not appear on the right-hand side). -/
theorem exit_code_pure_function (argc : Nat) (input : Option Json)
    (remote : Nat → Option String) (bucket : Option String) (s3Ok : Bool)
    (topic : Option String) (snsOk : Bool) :
    (runMain argc input remote bucket s3Ok topic snsOk).outcome.processExit
        = exitCodeSpec argc input ∧
    (exitCodeSpec argc input = 0 ↔
      2 ≤ argc ∧ ∃ xs, input.bind all_findings = some xs ∧
        (failed_checks xs).length = 0) := by
  constructor
  · unfold runMain exitCodeSpec
    by_cases ha : argc < 2
    · simp [ha, RunOutcome.processExit]
    · cases input with
      | none => simp [ha, RunOutcome.processExit]
      | some j =>
        cases h : all_findings j with
        | none => simp [ha, h, RunOutcome.processExit]
        | some xs =>
          by_cases hf : (failed_checks xs).length = 0
          · simp [ha, h, hf, RunOutcome.processExit]
          · cases hrep : report_of remote (failed_checks xs) with
            | mk o invs =>
              cases o <;> simp [ha, h, hf, hrep, RunOutcome.processExit]
  · by_cases ha : argc < 2
    · have h1 : exitCodeSpec argc input = 1 := by
        unfold exitCodeSpec; simp [ha]
      rw [h1]
      constructor
      · intro h0; omega
      · rintro ⟨ha2, -⟩; omega
    · cases input with
      | none =>
        have h1 : exitCodeSpec argc none = 1 := by
          unfold exitCodeSpec; simp [ha]
        rw [h1]
        constructor
        · intro h0; omega
        · rintro ⟨-, xs, hx, -⟩
          simp at hx
      | some j =>
        cases h : all_findings j with
        | none =>
          have h1 : exitCodeSpec argc (some j) = 1 := by
            unfold exitCodeSpec; simp [ha, h]
          rw [h1]
          constructor
          · intro h0; omega
          · rintro ⟨-, xs, hx, -⟩
            simp [h] at hx
        | some xs =>
          by_cases hf : (failed_checks xs).length = 0
          · have h1 : exitCodeSpec argc (some j) = 0 := by
              unfold exitCodeSpec; simp [ha, h, hf]
            rw [h1]
            constructor
            · intro _
              refine ⟨by omega, xs, by simp [h], hf⟩
            · intro _; rfl
          · have h1 : exitCodeSpec argc (some j) = 1 := by
              unfold exitCodeSpec; simp [ha, h, hf]
            rw [h1]
            constructor
            · intro h0; omega
            · rintro ⟨-, ys, hy, hylen⟩
              simp [h] at hy
              subst hy
              exact absurd hylen hf

/-- Claim C2: for a well-formed Shape B document, an element is classified
FAIL exactly when its `status_id` equals 2 and PASS exactly when it equals
1; any other `status_id` puts it in neither count, and the summary satisfies
`total = passed + failed` with `failed` the count of FAIL findings. -/
theorem shapeB_classification (j : Json) (xs : List Json)
    (_h : all_findings j = some xs) :
    (∀ f, f ∈ failed_checks xs ↔ f ∈ xs ∧ statusEq f 2 = true) ∧
    (∀ f, f ∈ passed_checks xs ↔ f ∈ xs ∧ statusEq f 1 = true) ∧
    (∀ f, f ∈ xs → statusEq f 2 = false → statusEq f 1 = false →
        f ∉ failed_checks xs ∧ f ∉ passed_checks xs) ∧
    total_checks xs = (passed_checks xs).length + (failed_checks xs).length ∧
    (failed_checks xs).length = (xs.filter (fun f => statusEq f 2)).length := by
  refine ⟨?_, ?_, ?_, ?_, rfl⟩
  · intro f; simp [failed_checks, List.mem_filter]
  · intro f; simp [passed_checks, List.mem_filter]
  · intro f hf h2 h1
    exact ⟨by simp [failed_checks, List.mem_filter, h2],
           by simp [passed_checks, List.mem_filter, h1]⟩
  · simp [total_checks, Nat.add_comm]

/-- A Shape B finding with `status_id` 2. -/
def fB1 : Json := Json.obj [("status_id", Json.num 2), ("message", Json.str "fail one")]

/-- A Shape B finding with `status_id` 1. -/
def fB2 : Json := Json.obj [("status_id", Json.num 1)]

/-- A Shape B finding with `status_id` 3 (neither PASS nor FAIL). -/
def fB3 : Json := Json.obj [("status_id", Json.num 3)]

/-- A well-formed Shape B document holding the three findings above. -/
def docB : Json := Json.obj [("findings", Json.arr [fB1, fB2, fB3])]

/-- Witness for C2 at the concrete document `docB`. -/
theorem shapeB_classification_witness :
    total_checks [fB1, fB2, fB3]
      = (passed_checks [fB1, fB2, fB3]).length + (failed_checks [fB1, fB2, fB3]).length :=
  (shapeB_classification docB [fB1, fB2, fB3] rfl).2.2.2.1

/-- Helper: once the field extraction has succeeded, `analyze_with_ai`
returns the response text on remote success and the fallback string on any
remote failure. -/
lemma analyze_with_ai_eq (remote : Option String) (finding : Json)
    (e : Extracted) (h : extract_ocsf_fields finding = some e) :
    analyze_with_ai remote finding
      = some (remote.getD ("Check failed: " ++ e.check_title)) := by
  unfold analyze_with_ai
  rw [h]
  cases remote <;> rfl

/-- A failing finding whose `resources` field is present but empty. -/
def fC3bad : Json :=
  Json.obj [("status_id", Json.num 2), ("resources", Json.arr []),
            ("message", Json.str "t3")]

/-- Counterexample to C3 as stated: on a finding whose `resources` field is
present but an empty array, `analyze_with_ai` raises to its caller (line 18
indexes the empty list before the `try` block), even though the remote call
would have succeeded. -/
theorem analyze_raises_on_empty_resources :
    analyze_with_ai (some "analysis text") fC3bad = none := rfl

/-- Claim C3 (amended): for every finding on which the local field
extraction of lines 16-25 succeeds (in particular, whenever `resources` is
absent or a non-empty array of objects), `analyze_with_ai` never raises: a
remote success returns the response text and any failure of the remote call
(network error, malformed response, missing expected field) yields the
fallback string `"Check failed: <title>"`. The result is a function of the
finding and its own remote outcome alone, so all other findings' results
are unaffected. -/
theorem analyze_fallback_after_extraction (finding : Json) (e : Extracted)
    (h : extract_ocsf_fields finding = some e) (remote : Option String) :
    analyze_with_ai remote finding
      = some (remote.getD ("Check failed: " ++ e.check_title)) :=
  analyze_with_ai_eq remote finding e h

/-- A failing finding carrying only a message (extraction succeeds on it). -/
def fC3ok : Json :=
  Json.obj [("status_id", Json.num 2), ("message", Json.str "S3 bucket public")]

/-- Witness for C3 (amended) at a concrete finding with the remote failing. -/
theorem analyze_fallback_witness :
    analyze_with_ai none fC3ok
      = some ((none : Option String).getD
          ("Check failed: " ++
            (⟨"Unknown", "S3 bucket public", "Unknown", "N/A", "Unknown"⟩
              : Extracted).check_title)) :=
  analyze_fallback_after_extraction fC3ok
    ⟨"Unknown", "S3 bucket public", "Unknown", "N/A", "Unknown"⟩ rfl none

/-- Helper: when every failing finding is processable, the violations loop
completes, and the model is invoked once per finding, in input order. -/
lemma violations_loop_complete (remote : Nat → Option String) :
    ∀ (fails : List Json) (idx : Nat), (∀ f ∈ fails, processable f = true) →
      ∃ secs, violations_loop remote idx fails = (some secs, fails) := by
  intro fails
  induction fails with
  | nil => exact fun idx _ => ⟨[], rfl⟩
  | cons f fs ih =>
    intro idx hall
    have hf := hall f (by simp)
    unfold processable at hf
    simp only [Bool.and_eq_true] at hf
    obtain ⟨⟨hru, hct⟩, hex⟩ := hf
    obtain ⟨ruid, hruid⟩ := Option.isSome_iff_exists.mp hru
    obtain ⟨ct, hct'⟩ := Option.isSome_iff_exists.mp hct
    obtain ⟨e, he⟩ := Option.isSome_iff_exists.mp hex
    have han := analyze_with_ai_eq (remote idx) f e he
    obtain ⟨secs, hsecs⟩ := ih (idx + 1) (fun g hg => hall g (by simp [hg]))
    refine ⟨violation_section idx ruid ct
        ((remote idx).getD ("Check failed: " ++ e.check_title)) ++ secs, ?_⟩
    unfold violations_loop
    rw [hruid, hct', han, hsecs]

/-- Claim C4 (amended): with a parsed document, zero failing findings exit
with code 0 and never invoke the Bedrock model; N > 0 failing findings, all
of which extract without raising, invoke the model exactly N times, once per
failing finding in input order, and exit with code 1. (When the extraction
of some failing finding raises — see C10 — the run crashes there and only
the earlier findings were analyzed.) -/
theorem invocation_discipline (argc : Nat) (j : Json) (xs : List Json)
    (remote : Nat → Option String) (bucket : Option String) (s3Ok : Bool)
    (topic : Option String) (snsOk : Bool)
    (ha : 2 ≤ argc) (h : all_findings j = some xs) :
    ((failed_checks xs).length = 0 →
      (runMain argc (some j) remote bucket s3Ok topic snsOk).outcome
          = RunOutcome.exited 0 ∧
      (runMain argc (some j) remote bucket s3Ok topic snsOk).invoked = []) ∧
    ((∀ f ∈ failed_checks xs, processable f = true) →
      (failed_checks xs).length ≠ 0 →
      (runMain argc (some j) remote bucket s3Ok topic snsOk).invoked
          = failed_checks xs ∧
      (runMain argc (some j) remote bucket s3Ok topic snsOk).outcome
          = RunOutcome.exited 1) := by
  have ha' : ¬ argc < 2 := by omega
  constructor
  · intro hf
    unfold runMain
    simp [ha', h, hf]
  · intro hall hf
    obtain ⟨secs, hsecs⟩ := violations_loop_complete remote (failed_checks xs) 1 hall
    have hrep : report_of remote (failed_checks xs)
        = (some (String.intercalate "\n"
            (report_header (failed_checks xs).length ++ secs)), failed_checks xs) := by
      unfold report_of
      rw [hsecs]
    unfold runMain
    simp [ha', h, hf, hrep]

/-- A failing finding with an empty `resources` array. -/
def fC4 : Json :=
  Json.obj [("status_id", Json.num 2), ("resources", Json.arr []),
            ("message", Json.str "violation four")]

/-- A Shape B document whose only finding is `fC4`. -/
def docC4 : Json := Json.obj [("findings", Json.arr [fC4])]

/-- Counterexample to C4 as stated: a document with exactly one failing
finding on which the model is invoked zero times (not once), because the
run crashes on the empty `resources` array before the remote call. -/
theorem invocation_miscount_on_crash :
    (failed_checks [fC4]).length = 1 ∧
    all_findings docC4 = some [fC4] ∧
    (runMain 2 (some docC4) (fun _ => some "fix") none true none true).invoked = [] ∧
    (runMain 2 (some docC4) (fun _ => some "fix") none true none true).outcome
      = RunOutcome.crashed :=
  ⟨rfl, rfl, rfl, rfl⟩

/-- A failing finding without a `resources` key. -/
def fC4a : Json := Json.obj [("status_id", Json.num 2), ("message", Json.str "first violation")]

/-- A passing finding. -/
def fC4p : Json := Json.obj [("status_id", Json.num 1)]

/-- A failing finding with a non-empty `resources` array. -/
def fC4b : Json :=
  Json.obj [("status_id", Json.num 2), ("message", Json.str "second violation"),
            ("resources", Json.arr [Json.obj [("uid", Json.str "arn:aws:s3:::b")]])]

/-- A Shape B document with two failing findings and one passing finding. -/
def docC4ok : Json := Json.obj [("findings", Json.arr [fC4a, fC4p, fC4b])]

/-- Witness for C4 (amended) at a concrete document with two failing
findings, the remote failing every call. -/
theorem invocation_discipline_witness :
    (runMain 2 (some docC4ok) (fun _ => none) none false none false).invoked
        = failed_checks [fC4a, fC4p, fC4b] ∧
    (runMain 2 (some docC4ok) (fun _ => none) none false none false).outcome
        = RunOutcome.exited 1 :=
  (invocation_discipline 2 docC4ok [fC4a, fC4p, fC4b] (fun _ => none)
      none false none false (by omega) rfl).2 (by decide) (by decide)

/-- A failing finding with a present but empty `resources` array. -/
def fC10 : Json :=
  Json.obj [("status_id", Json.num 2), ("resources", Json.arr []),
            ("message", Json.str "IAM root access key exists")]

/-- A valid Shape B document whose only finding is `fC10`. -/
def docC10 : Json := Json.obj [("findings", Json.arr [fC10])]

/-- Claim C10: on a valid Shape B document holding a failing finding whose
`resources` field is present but an empty array, indexing the first element
of the empty array raises an uncaught `IndexError` (line 144, and likewise
line 18), so the run crashes: the model is never invoked, no report file is
written, and no placeholder rendering or clean gate exit happens. -/
theorem empty_resources_array_crashes :
    resources_first fC10 = none ∧
    (runMain 2 (some docC10) (fun _ => some "fix") (some "bucket") true
        (some "topic") true).outcome = RunOutcome.crashed ∧
    (runMain 2 (some docC10) (fun _ => some "fix") (some "bucket") true
        (some "topic") true).invoked = [] ∧
    (runMain 2 (some docC10) (fun _ => some "fix") (some "bucket") true
        (some "topic") true).reportFile = none :=
  ⟨rfl, rfl, rfl, rfl⟩

/-- PASS/FAIL status of a canonical finding (spec §3). -/
inductive Status where
  | PASS : Status
  | FAIL : Status
deriving DecidableEq

/-- A canonical finding as the Report Parser produces it for Shape A: the
raw element together with its status. -/
structure FindingA where
  raw : Json
  status : Status

/-- The ScanSummary record of spec §3. -/
structure ScanSummary where
  total : Nat
  passed : Nat
  failed : Nat

/-- Modelled from the spec: the Shape A ("checkov-style") branch of the
Report Parser (§4.1). The script under `src/` handles only Shape B, and the
variant of this repository that parses `results.failed_checks` /
`results.passed_checks` is not among the source files, so this definition
follows the spec's words: every element of `failed_checks` becomes a FAIL
finding and every element of `passed_checks` a PASS finding, input order
preserved within each list, and the summary counts are the two list
lengths. -/
def parseShapeA (doc : Json) : Option (List FindingA × ScanSummary) :=
  match doc with
  | Json.obj fields =>
    match lookupField "results" fields with
    | some (Json.obj res) =>
      match lookupField "failed_checks" res, lookupField "passed_checks" res with
      | some (Json.arr fs), some (Json.arr ps) =>
          some (fs.map (fun f => ⟨f, Status.FAIL⟩) ++ ps.map (fun p => ⟨p, Status.PASS⟩),
                ⟨fs.length + ps.length, ps.length, fs.length⟩)
      | _, _ => none
    | _ => none
  | _ => none

/-- Whether a canonical finding is a FAIL finding. -/
def isFAIL (fd : FindingA) : Bool :=
  match fd.status with
  | Status.FAIL => true
  | Status.PASS => false

/-- The FAIL subsequence of a canonical finding list, in order. -/
def failList (l : List FindingA) : List FindingA :=
  l.filter isFAIL

/-- Claim C5: for every well-formed Shape A document, the parser produces
`summary.total = len(failed_checks) + len(passed_checks)` (and
`total = passed + failed`), and the produced FAIL findings list is exactly
`failed_checks` mapped one-to-one, order preserved. -/
theorem shapeA_parse (fields res : List (String × Json)) (fs ps : List Json)
    (hres : lookupField "results" fields = some (Json.obj res))
    (hf : lookupField "failed_checks" res = some (Json.arr fs))
    (hp : lookupField "passed_checks" res = some (Json.arr ps)) :
    ∃ findings summary,
      parseShapeA (Json.obj fields) = some (findings, summary) ∧
      summary.total = fs.length + ps.length ∧
      summary.total = summary.passed + summary.failed ∧
      failList findings = fs.map (fun f => ⟨f, Status.FAIL⟩) := by
  refine ⟨fs.map (fun f => ⟨f, Status.FAIL⟩) ++ ps.map (fun p => ⟨p, Status.PASS⟩),
          ⟨fs.length + ps.length, ps.length, fs.length⟩, ?_, rfl,
          by show fs.length + ps.length = ps.length + fs.length; omega, ?_⟩
  · simp [parseShapeA, hres, hf, hp]
  · have h1 : ∀ l : List Json,
        failList (l.map (fun f => (⟨f, Status.FAIL⟩ : FindingA)))
          = l.map (fun f => ⟨f, Status.FAIL⟩) := by
      intro l
      induction l with
      | nil => rfl
      | cons a as iha => simp [failList, List.filter_cons, isFAIL, iha]
    have h2 : ∀ l : List Json,
        failList (l.map (fun p => (⟨p, Status.PASS⟩ : FindingA))) = [] := by
      intro l
      induction l with
      | nil => rfl
      | cons a as iha => simp [failList, List.filter_cons, isFAIL, iha]
    unfold failList at *
    rw [List.filter_append, h1, h2, List.append_nil]

/-- A Shape A failed check. -/
def fA1 : Json := Json.obj [("check_name", Json.str "c1"), ("resource", Json.str "r1")]

/-- A Shape A passed check. -/
def fA2 : Json := Json.obj [("check_name", Json.str "c2")]

/-- The inner `results` object of a concrete Shape A document. -/
def resA : List (String × Json) :=
  [("failed_checks", Json.arr [fA1]), ("passed_checks", Json.arr [fA2])]

/-- The field list of a concrete Shape A document. -/
def fieldsA : List (String × Json) := [("results", Json.obj resA)]

/-- Witness for C5 at the concrete Shape A document. -/
theorem shapeA_parse_witness :
    ∃ findings summary,
      parseShapeA (Json.obj fieldsA) = some (findings, summary) ∧
      summary.total = [fA1].length + [fA2].length ∧
      summary.total = summary.passed + summary.failed ∧
      failList findings = [fA1].map (fun f => ⟨f, Status.FAIL⟩) :=
  shapeA_parse fieldsA resA [fA1] [fA2] rfl rfl rfl

/-- Counterexample to C6 as stated: a decoded document that is not a mapping
(here the JSON array `[]`) does not fail fast: the run treats it as zero
findings, exits with code 0 and attempts the success notification. -/
theorem nonmapping_input_not_fatal :
    (runMain 2 (some (Json.arr [])) (fun _ => none) none true (some "topic") true).outcome
        = RunOutcome.exited 0 ∧
    (runMain 2 (some (Json.arr [])) (fun _ => none) none true (some "topic") true).notifyCall
        = some (success_summary 0, success_details 0 0) :=
  ⟨rfl, rfl⟩

/-- Claim C6 (amended): the run fails fast exactly when the input cannot be
read or decoded (lines 94-99): it exits 1 with no notification attempted and
no report written, and that is the only failure of the read/decode step. A
decoded document never fails the parse step itself: a non-mapping value is
treated as zero findings (exit 0), and a mapping without the optional
`findings` key likewise — missing optional keys never fail the parse. -/
theorem parse_failfast_amended (argc : Nat) (remote : Nat → Option String)
    (bucket : Option String) (s3Ok : Bool) (topic : Option String) (snsOk : Bool)
    (ha : 2 ≤ argc) :
    ((runMain argc none remote bucket s3Ok topic snsOk).outcome = RunOutcome.exited 1 ∧
     (runMain argc none remote bucket s3Ok topic snsOk).parsed = false ∧
     (runMain argc none remote bucket s3Ok topic snsOk).notifyCall = none ∧
     (runMain argc none remote bucket s3Ok topic snsOk).reportFile = none) ∧
    (∀ j, (runMain argc (some j) remote bucket s3Ok topic snsOk).parsed = true) ∧
    (∀ j, Json.isObj j = false →
      (runMain argc (some j) remote bucket s3Ok topic snsOk).outcome
        = RunOutcome.exited 0) ∧
    (∀ fields, lookupField "findings" fields = none →
      (runMain argc (some (Json.obj fields)) remote bucket s3Ok topic snsOk).outcome
        = RunOutcome.exited 0) := by
  have ha' : ¬ argc < 2 := by omega
  refine ⟨?_, ?_, ?_, ?_⟩
  · unfold runMain
    simp [ha']
  · intro j
    unfold runMain
    cases h : all_findings j with
    | none => simp [ha', h]
    | some xs =>
      by_cases hf : (failed_checks xs).length = 0
      · simp [ha', h, hf]
      · cases hrep : report_of remote (failed_checks xs) with
        | mk o invs => cases o <;> simp [ha', h, hf, hrep]
  · intro j hj
    have h : all_findings j = some [] := by
      cases j with
      | obj fields => simp [Json.isObj] at hj
      | null => rfl
      | bool b => rfl
      | num n => rfl
      | str s => rfl
      | arr ys => rfl
    unfold runMain
    simp [ha', h, failed_checks]
  · intro fields hfk
    have h : all_findings (Json.obj fields) = some [] := by
      simp [all_findings, hfk]
    unfold runMain
    simp [ha', h, failed_checks]

/-- Witness for C6 (amended) at concrete inputs: a read failure exits 1 with
nothing notified or written. -/
theorem parse_failfast_witness :
    (runMain 2 none (fun _ => none) none true (some "topic") true).outcome
        = RunOutcome.exited 1 ∧
    (runMain 2 none (fun _ => none) none true (some "topic") true).parsed = false ∧
    (runMain 2 none (fun _ => none) none true (some "topic") true).notifyCall = none ∧
    (runMain 2 none (fun _ => none) none true (some "topic") true).reportFile = none :=
  (parse_failfast_amended 2 (fun _ => none) none true (some "topic") true (by omega)).1

/-- Claim C7: on any dict finding, each missing optional field renders as
the literal placeholder — `"Unknown"` for check id, title, resource uid and
severity, `"N/A"` for the region — in both the adapter extraction (lines
21-25) and the loop display (lines 144-148, which compute the same
expressions); the `some` results show that a missing key never raises. -/
theorem missing_fields_render_placeholders (fields : List (String × Json)) :
    (lookupField "metadata" fields = none →
        check_id_of (Json.obj fields) = some "Unknown") ∧
    (lookupField "message" fields = none →
        check_title_of (Json.obj fields) = some "Unknown") ∧
    (lookupField "resources" fields = none →
        resource_uid_of (Json.obj fields) = some "Unknown") ∧
    (lookupField "cloud" fields = none →
        region_of (Json.obj fields) = some "N/A") ∧
    (lookupField "severity" fields = none →
        severity_of (Json.obj fields) = some "Unknown") := by
  refine ⟨?_, ?_, ?_, ?_, ?_⟩
  · intro h
    simp [check_id_of, pyGetD, h, lookupField, pyStr]
  · intro h
    simp [check_title_of, pyGetD, h, pyStr]
  · intro h
    simp [resource_uid_of, resources_first, pyGetD, h, lookupField, pyStr]
  · intro h
    simp [region_of, pyGetD, h, lookupField, pyStr]
  · intro h
    simp [severity_of, pyGetD, h, pyStr]

/-- Witness for C7 at the concrete finding with no optional fields at all. -/
theorem missing_fields_render_placeholders_witness :
    check_id_of (Json.obj []) = some "Unknown" :=
  (missing_fields_render_placeholders []).1 rfl

/-- The projection of a failing finding consumed by the report assembly: its
two display fields (lines 144-148) and its extracted fields (lines 16-25,
which determine the fallback analysis text). -/
def displayProj (f : Json) : Option String × Option String × Option Extracted :=
  (resource_uid_of f, check_title_of f, extract_ocsf_fields f)

/-- Helper: the report sections produced by the violations loop depend only
on the findings' display projections (and the remote outcomes). -/
lemma violations_loop_proj_eq (remote : Nat → Option String) :
    ∀ (l r : List Json) (idx : Nat),
      l.map displayProj = r.map displayProj →
      (violations_loop remote idx l).1 = (violations_loop remote idx r).1 := by
  intro l
  induction l with
  | nil =>
    intro r idx h
    cases r with
    | nil => rfl
    | cons b bs => simp at h
  | cons a as ih =>
    intro r idx h
    cases r with
    | nil => simp at h
    | cons b bs =>
      simp only [List.map_cons, List.cons.injEq] at h
      obtain ⟨hab, hrest⟩ := h
      have h1 : resource_uid_of a = resource_uid_of b :=
        congrArg (fun t => t.1) hab
      have h2 : check_title_of a = check_title_of b :=
        congrArg (fun t => t.2.1) hab
      have h3 : extract_ocsf_fields a = extract_ocsf_fields b :=
        congrArg (fun t => t.2.2) hab
      have h4 : analyze_with_ai (remote idx) a = analyze_with_ai (remote idx) b := by
        unfold analyze_with_ai
        rw [h3]
      have htail := ih bs (idx + 1) hrest
      simp only [violations_loop]
      rw [← h1, ← h2, ← h4]
      cases resource_uid_of a with
      | none => rfl
      | some ruid =>
        cases check_title_of a with
        | none => rfl
        | some ct =>
          cases analyze_with_ai (remote idx) a with
          | none => rfl
          | some ai =>
            cases hA : violations_loop remote (idx + 1) as with
            | mk oA invA =>
              cases hB : violations_loop remote (idx + 1) bs with
              | mk oB invB =>
                have hO : oA = oB := by
                  rw [hA, hB] at htail
                  exact htail
                subst hO
                cases oA <;> rfl

/-- Claim C8: the assembled report text is a pure function of the failing
count, the failing findings' display projections, and the per-call analysis
outcomes: two failing sequences with equal projections, assembled under the
same remote outcomes, yield byte-identical report text. (There is no
timestamp or randomness anywhere in the assembly, and determinism of a
second assembly on identical inputs is definitional in the model.) -/
theorem report_pure_function (remote : Nat → Option String)
    (l r : List Json)
    (h : l.map displayProj = r.map displayProj) :
    (report_of remote l).1 = (report_of remote r).1 := by
  have hlen : l.length = r.length := by
    have h2 := congrArg List.length h
    simpa using h2
  have hloop := violations_loop_proj_eq remote l r 1 h
  unfold report_of
  cases hA : violations_loop remote 1 l with
  | mk oA invA =>
    cases hB : violations_loop remote 1 r with
    | mk oB invB =>
      have hO : oA = oB := by
        rw [hA, hB] at hloop
        exact hloop
      subst hO
      cases oA <;> simp [hlen]

/-- A failing finding with only a message. -/
def fC8x : Json :=
  Json.obj [("status_id", Json.num 2), ("message", Json.str "open security group")]

/-- The same finding with an extra field that no display consumes. -/
def fC8y : Json :=
  Json.obj [("status_id", Json.num 2), ("message", Json.str "open security group"),
            ("extra", Json.str "ignored")]

/-- Witness for C8: two distinct findings with equal display projections
assemble into byte-identical reports. -/
theorem report_pure_function_witness :
    (report_of (fun _ => none) [fC8x]).1 = (report_of (fun _ => none) [fC8y]).1 :=
  report_pure_function (fun _ => none) [fC8x] [fC8y] rfl

/-- Line 164: the fixed relative path of the local report artifact, opened
with mode `w` (previous content overwritten). -/
def reportPath : String := "compliance-report.txt"

/-- A passing-only Shape B document. -/
def docC9 : Json :=
  Json.obj [("findings", Json.arr [Json.obj [("status_id", Json.num 1)]])]

/-- Counterexample to C9 as stated: a run that gets past parsing with zero
failing findings writes no local report file at all (the success branch,
lines 117-132, never opens `compliance-report.txt`). -/
theorem no_report_file_on_success :
    (runMain 2 (some docC9) (fun _ => some "a") (some "b") true (some "t") true).parsed
        = true ∧
    (runMain 2 (some docC9) (fun _ => some "a") (some "b") true (some "t") true).outcome
        = RunOutcome.exited 0 ∧
    (runMain 2 (some docC9) (fun _ => some "a") (some "b") true (some "t") true).reportFile
        = none :=
  ⟨rfl, rfl, rfl⟩

/-- Claim C9 (amended): only a run that reaches the failing branch and
completes the loop writes the local report: it writes the assembled report
text to the fixed relative path `compliance-report.txt` (mode `w`, so any
previous content is overwritten); a run past parsing with zero failing
findings writes no local report file — its fixed "all checks passed" text
goes only to the notification call. -/
theorem report_file_amended (argc : Nat) (j : Json) (xs : List Json)
    (remote : Nat → Option String) (bucket : Option String) (s3Ok : Bool)
    (topic : Option String) (snsOk : Bool)
    (ha : 2 ≤ argc) (h : all_findings j = some xs) :
    ((failed_checks xs).length = 0 →
      (runMain argc (some j) remote bucket s3Ok topic snsOk).reportFile = none ∧
      (runMain argc (some j) remote bucket s3Ok topic snsOk).notifyCall
        = some (success_summary (total_checks xs),
                success_details (total_checks xs) (passed_checks xs).length)) ∧
    (∀ rep invs, (failed_checks xs).length ≠ 0 →
      report_of remote (failed_checks xs) = (some rep, invs) →
      (runMain argc (some j) remote bucket s3Ok topic snsOk).reportFile = some rep) := by
  have ha' : ¬ argc < 2 := by omega
  constructor
  · intro hf
    unfold runMain
    simp [ha', h, hf]
  · intro rep invs hf hrep
    unfold runMain
    simp [ha', h, hf, hrep]

/-- A failing finding with a resource uid, used by the C9 witness. -/
def fC9f : Json :=
  Json.obj [("status_id", Json.num 2), ("message", Json.str "c9 violation"),
            ("resources", Json.arr [Json.obj [("uid", Json.str "arn:c9")]])]

/-- A Shape B document whose only finding is `fC9f`. -/
def docC9f : Json := Json.obj [("findings", Json.arr [fC9f])]

/-- Witness for C9 (amended): the failing run writes the assembled report. -/
theorem report_file_amended_witness :
    (runMain 2 (some docC9f) (fun _ => none) none true none true).reportFile
      = some (String.intercalate "\n" (report_header 1 ++
          violation_section 1 "arn:c9" "c9 violation" "Check failed: c9 violation")) :=
  (report_file_amended 2 docC9f [fC9f] (fun _ => none) none true none true
      (by omega) rfl).2
    (String.intercalate "\n" (report_header 1 ++
      violation_section 1 "arn:c9" "c9 violation" "Check failed: c9 violation"))
    [fC9f] (by decide) rfl
